import Mathlib

/-
Verification of the MISP-to-STIX converter (src/misptostix.py).

The converter works over parsed JSON values.  We embed JSON shallowly as an
inductive type and translate each method of `MISPToSTIXConverter` into a Lean
function over that type.  Python operations that can raise (subscripting,
`in` on a non-container, `int()` on a bad string, iteration of a
non-iterable, `.get` on a non-dict) are modelled with `Except PyErr`;
`try/except` blocks in the source become explicit handling of the `error`
case.  File input is modelled as an already-parsed `Json` value and file
output as an `Option Json` output-path state.  JSON numbers are modelled as
integers, which covers every numeric value the claims mention.
-/

set_option autoImplicit false

/-- A parsed JSON value.  Objects are association lists whose keys are
assumed distinct (Python dicts after `json.load`). -/
inductive Json where
  | null
  | bool (b : Bool)
  | num (n : Int)
  | str (s : String)
  | arr (xs : List Json)
  | obj (kvs : List (String × Json))

/-- The Python exceptions the translated code can raise. -/
inductive PyErr where
  | typeError (msg : String)
  | valueError (msg : String)
  | attributeError (msg : String)
  | keyError (msg : String)

/-- Whether an `Except` computation succeeded. -/
def exOk {ε α : Type} : Except ε α → Bool
  | .ok _ => true
  | .error _ => false

/-- Key lookup in a JSON object (Python `dict` lookup). -/
def jlookup : List (String × Json) → String → Option Json
  | [], _ => none
  | (k, v) :: rest, key => if k = key then some v else jlookup rest key

/-- Substring test, as Python `pat in s` on strings. -/
def strContains (s pat : String) : Bool :=
  if pat = "" then true else (s.splitOn pat).length > 1

/-- Python `key in x` for a string key: raises `TypeError` when `x` is not a
container; on a list it is element equality, on a string substring search. -/
def pyContains : Json → String → Except PyErr Bool
  | Json.obj kvs, key => .ok (jlookup kvs key).isSome
  | Json.str s, key => .ok (strContains s key)
  | Json.arr xs, key =>
      .ok (xs.any fun j => match j with | Json.str t => t = key | _ => false)
  | _, _ => .error (PyErr.typeError "argument of type is not iterable")

/-- Python `x[key]` for a string key: `KeyError` on a dict without the key,
`TypeError` on anything that is not a dict. -/
def pyGetItem : Json → String → Except PyErr Json
  | Json.obj kvs, key =>
      match jlookup kvs key with
      | some v => .ok v
      | none => .error (PyErr.keyError key)
  | _, _ => .error (PyErr.typeError "indices must be integers")

/-- Python `x.get(key, default)`: only dicts have `.get`; anything else
raises `AttributeError`. -/
def pyGet : Json → String → Json → Except PyErr Json
  | Json.obj kvs, key, dflt => .ok ((jlookup kvs key).getD dflt)
  | _, _, _ => .error (PyErr.attributeError "object has no attribute get")

/-- Python iteration / `list(x)`: a list yields its elements, a string its
characters, a dict its keys; anything else raises `TypeError`. -/
def pyList : Json → Except PyErr (List Json)
  | Json.arr xs => .ok xs
  | Json.str s => .ok (s.data.map fun c => Json.str (String.singleton c))
  | Json.obj kvs => .ok (kvs.map fun kv => Json.str kv.1)
  | _ => .error (PyErr.typeError "object is not iterable")

/-- Python truthiness of a JSON value. -/
def pyTruthy : Json → Bool
  | Json.null => false
  | Json.bool b => b
  | Json.num n => n ≠ 0
  | Json.str s => !s.isEmpty
  | Json.arr xs => !xs.isEmpty
  | Json.obj kvs => !kvs.isEmpty

/-- A single-quote character, for Python `repr` output. -/
def squote : String := String.singleton (Char.ofNat 39)

mutual
/-- Python `repr` of a JSON value (string escaping is not reproduced; no
claim depends on it). -/
def pyRepr : Json → String
  | Json.null => "None"
  | Json.bool true => "True"
  | Json.bool false => "False"
  | Json.num n => toString n
  | Json.str s => squote ++ s ++ squote
  | Json.arr xs => "[" ++ pyReprList xs ++ "]"
  | Json.obj kvs => "\x7b" ++ pyReprPairs kvs ++ "\x7d"

/-- Comma-separated `repr`s of list elements. -/
def pyReprList : List Json → String
  | [] => ""
  | [x] => pyRepr x
  | x :: y :: xs => pyRepr x ++ ", " ++ pyReprList (y :: xs)

/-- Comma-separated `repr`s of dict entries. -/
def pyReprPairs : List (String × Json) → String
  | [] => ""
  | [(k, v)] => squote ++ k ++ squote ++ ": " ++ pyRepr v
  | (k, v) :: p :: kvs =>
      squote ++ k ++ squote ++ ": " ++ pyRepr v ++ ", " ++ pyReprPairs (p :: kvs)
end

/-- Python `str(x)` as used by f-string interpolation: identity on strings,
`repr`-like otherwise. -/
def pyStr : Json → String
  | Json.str s => s
  | j => pyRepr j

/-- The code points CPython treats as whitespace when parsing `int(s)`
(`Py_UNICODE_ISSPACE`, the `str.isspace` set). -/
def pySpaceCodes : List Nat :=
  [0x9, 0xa, 0xb, 0xc, 0xd, 0x1c, 0x1d, 0x1e, 0x1f, 0x20, 0x85, 0xa0,
   0x1680, 0x2000, 0x2001, 0x2002, 0x2003, 0x2004, 0x2005, 0x2006, 0x2007,
   0x2008, 0x2009, 0x200a, 0x2028, 0x2029, 0x202f, 0x205f, 0x3000]

/-- CPython whitespace test for the `int()` parser. -/
def pyIsSpace (c : Char) : Bool := pySpaceCodes.contains c.toNat

/-- Leading and trailing whitespace removed, as `int()` tolerates. -/
def trimChars (cs : List Char) : List Char :=
  ((cs.dropWhile pyIsSpace).reverse.dropWhile pyIsSpace).reverse

/-- The first code point of every run of ten consecutive Unicode decimal
digits (category `Nd`, the characters CPython `int()` accepts as digits);
each run carries the values 0 through 9 in order. -/
def pyDigitBases : List Nat :=
  [0x30, 0x660, 0x6f0, 0x7c0, 0x966, 0x9e6, 0xa66, 0xae6, 0xb66, 0xbe6,
   0xc66, 0xce6, 0xd66, 0xde6, 0xe50, 0xed0, 0xf20, 0x1040, 0x1090, 0x17e0,
   0x1810, 0x1946, 0x19d0, 0x1a80, 0x1a90, 0x1b50, 0x1bb0, 0x1c40, 0x1c50,
   0xa620, 0xa8d0, 0xa900, 0xa9d0, 0xa9f0, 0xaa50, 0xabf0, 0xff10, 0x104a0,
   0x10d30, 0x11066, 0x110f0, 0x11136, 0x111d0, 0x112f0, 0x11450, 0x114d0,
   0x11650, 0x116c0, 0x11730, 0x118e0, 0x11950, 0x11c50, 0x11d50, 0x11da0,
   0x16a60, 0x16ac0, 0x16b50, 0x1d7ce, 0x1d7d8, 0x1d7e2, 0x1d7ec, 0x1d7f6,
   0x1e140, 0x1e2f0, 0x1e950, 0x1fbf0]

/-- The decimal value of a Unicode decimal digit, `none` on anything else
(CPython `_PyUnicode_ToDecimalDigit`). -/
def pyDigitVal? (c : Char) : Option Nat :=
  pyDigitBases.findSome? fun b =>
    if b ≤ c.toNat ∧ c.toNat < b + 10 then some (c.toNat - b) else none

/-- Digits continued after the first one: a digit extends the accumulator,
and a single underscore is allowed between two digits (CPython digit
grouping: not leading, not trailing, not doubled). -/
def goDigits (acc : Nat) : List Char → Option Nat
  | [] => some acc
  | c :: rest =>
    match pyDigitVal? c with
    | some v => goDigits (acc * 10 + v) rest
    | none =>
      if c = '_' then
        match rest with
        | [] => none
        | d :: rest2 =>
          match pyDigitVal? d with
          | some v => goDigits (acc * 10 + v) rest2
          | none => none
      else none

/-- A non-empty digit sequence with optional grouping underscores. -/
def parseDigitsU : List Char → Option Nat
  | [] => none
  | c :: rest =>
    match pyDigitVal? c with
    | some v => goDigits v rest
    | none => none

/-- Python `int(s)` on a string: surrounding whitespace tolerated, optional
sign, then Unicode decimal digits with optional grouping underscores;
`none` models `ValueError`. -/
def pyIntStr (s : String) : Option Int :=
  match trimChars s.data with
  | [] => none
  | c :: rest =>
    if c = '-' then (parseDigitsU rest).map (fun n => -(n : Int))
    else if c = '+' then (parseDigitsU rest).map (fun n => (n : Int))
    else (parseDigitsU (c :: rest)).map (fun n => (n : Int))

/-- Python `int(x)`: integers pass through, booleans become 0 or 1, strings
are parsed (`ValueError` on failure), everything else raises `TypeError`. -/
def pyInt : Json → Except PyErr Int
  | Json.num n => .ok n
  | Json.bool b => .ok (if b then 1 else 0)
  | Json.str s =>
      match pyIntStr s with
      | some n => .ok n
      | none => .error (PyErr.valueError "invalid literal for int")
  | _ => .error (PyErr.typeError "int argument must be a string or a number")

/-- Translation of `MISPToSTIXConverter._sanitize_list` (lines 55-69):
`None` becomes `[]`, a string becomes a one-element list, and anything else
is passed to `list(...)`, which raises `TypeError` on non-iterables. -/
def _sanitize_list (value : Json) : Except PyErr (List Json) :=
  match value with
  | Json.null => .ok []
  | Json.str s => .ok [Json.str s]
  | v => pyList v

/-- The fields `stix2.ThreatActor(...)` is called with at line 110.  The
stix2 library is the external serializer collaborator and is modelled as a
record of the passed arguments.  `external_references` keeps the URL of each
entry; the `source_name` of every entry is the constant `"MISP"`. -/
structure ThreatActor where
  id : String
  name : Json
  description : Json
  aliases : List Json
  labels : List String
  external_references : List String
  confidence : Int

/-- Body of the `try` block of `create_threat_actor` (lines 82-121).
`.ok none` is the validation path that logs a warning and returns `None`;
`.error` is an exception escaping to the `except` handler. -/
def create_threat_actor_try (item : Json) : Except PyErr (Option ThreatActor) :=
  -- line 83: all(key in item for key in ["uuid", "value"]), short-circuit
  match pyContains item "uuid" with
  | .error e => .error e
  | .ok hasUuid =>
    match (if hasUuid then pyContains item "value" else .ok false) with
    | .error e => .error e
    | .ok hasValue =>
      if !(hasUuid && hasValue) then
        .ok none  -- line 84-85: warning, return None
      else
        -- line 87: actor_id is the fixed tag followed by str(item["uuid"])
        match pyGetItem item "uuid" with
        | .error e => .error e
        | .ok uuidVal =>
          let actor_id := "threat-actor--" ++ pyStr uuidVal
          -- line 90: meta = item.get("meta", {})
          match pyGet item "meta" (Json.obj []) with
          | .error e => .error e
          | .ok meta =>
            -- line 93: synonyms = self._sanitize_list(meta.get("synonyms"))
            match pyGet meta "synonyms" Json.null with
            | .error e => .error e
            | .ok synRaw =>
              match _sanitize_list synRaw with
              | .error e => .error e
              | .ok synonyms =>
                -- line 94: refs = self._sanitize_list(meta.get("refs"))
                match pyGet meta "refs" Json.null with
                | .error e => .error e
                | .ok refsRaw =>
                  match _sanitize_list refsRaw with
                  | .error e => .error e
                  | .ok refs =>
                    -- lines 97-101: labels from country / targeted-sector
                    match pyGet meta "country" Json.null with
                    | .error e => .error e
                    | .ok countryV =>
                      match pyGet meta "targeted-sector" Json.null with
                      | .error e => .error e
                      | .ok sectorV =>
                        let labels :=
                          (if pyTruthy countryV
                           then ["Country: " ++ pyStr countryV] else [])
                          ++
                          (if pyTruthy sectorV
                           then ["Targeted Sector: " ++ pyStr sectorV] else [])
                        -- lines 104-107: external references, strings only
                        let external_references :=
                          refs.filterMap fun r =>
                            match r with
                            | Json.str s => some s
                            | _ => none
                        -- lines 110-118: stix2.ThreatActor(...) arguments
                        match pyGetItem item "value" with
                        | .error e => .error e
                        | .ok nameV =>
                          match pyGet item "description"
                              (Json.str "No description available.") with
                          | .error e => .error e
                          | .ok descV =>
                            match pyGet meta "attribution-confidence"
                                (Json.num 50) with
                            | .error e => .error e
                            | .ok confRaw =>
                              match pyInt confRaw with
                              | .error e => .error e
                              | .ok conf =>
                                .ok (some
                                  { id := actor_id
                                    name := nameV
                                    description := descV
                                    aliases := synonyms
                                    labels := labels
                                    external_references := external_references
                                    confidence := conf })

/-- Translation of `create_threat_actor` (lines 71-125): the `except` at
lines 123-125 turns every exception into `None`. -/
def create_threat_actor (item : Json) : Option ThreatActor :=
  match create_threat_actor_try item with
  | .ok r => r
  | .error _ => none

/-- The fields `stix2.Relationship(...)` is called with at line 149; again
the stix2 constructor is modelled as a record of the passed arguments. -/
structure Relationship where
  id : String
  relationship_type : String
  source_ref : String
  target_ref : String
  description : String
  confidence : Int

/-- Line 145 of `create_relationships`: the short-circuit check
`all(key in relation for key in ["dest-uuid", "type"])`. -/
def relation_keys_ok (relation : Json) : Except PyErr Bool :=
  match pyContains relation "dest-uuid" with
  | .error e => .error e
  | .ok h1 =>
    if h1 then pyContains relation "type" else .ok false

/-- Lines 149-156: construction of one `stix2.Relationship`.  `rel_id` is
the freshly drawn `f"relationship--{uuid.uuid4()}"` value. -/
def relation_build (source_actor_id rel_id : String) (relation : Json) :
    Except PyErr Relationship :=
  match pyGetItem relation "dest-uuid" with
  | .error e => .error e
  | .ok destV =>
    match pyGetItem relation "type" with
    | .error e => .error e
    | .ok typeV =>
      .ok { id := rel_id
            relationship_type := "related-to"
            source_ref := source_actor_id
            target_ref := "threat-actor--" ++ pyStr destV
            description := "Relationship type: " ++ pyStr typeV
            confidence := 80 }

/-- Translation of `create_relationships` (lines 127-164) once the input is
a list.  `ids` abstracts the stream of `uuid.uuid4()` draws and `n` counts
the draws made so far; the returned counter is the new position.  A stub
failing the key check is skipped without drawing an id (`continue`, line
147); a stub whose construction raises is skipped by the per-stub `except`
(lines 161-162) after the id was drawn. -/
def create_relationships (ids : Nat → String) (source_actor_id : String)
    (related_items : List Json) (n : Nat) : List Relationship × Nat :=
  match related_items with
  | [] => ([], n)
  | relation :: rest =>
    match relation_keys_ok relation with
    | .error _ => create_relationships ids source_actor_id rest n
    | .ok false => create_relationships ids source_actor_id rest n
    | .ok true =>
      match relation_build source_actor_id ("relationship--" ++ ids n) relation with
      | .error _ => create_relationships ids source_actor_id rest (n + 1)
      | .ok r =>
        let p := create_relationships ids source_actor_id rest (n + 1)
        (r :: p.1, p.2)

/-- An element of the `stix_objects` accumulator of `convert` (line 176). -/
inductive StixObject where
  | actor (a : ThreatActor)
  | rel (r : Relationship)

/-- The loop of `convert` (lines 179-191).  `acc` is the `stix_objects`
list being appended to.  A `None` actor skips the record; otherwise the
actor is appended and, when `item.get("related")` is truthy, it is iterated
and the returned relationships are appended.  Iterating a truthy
non-iterable `related` value raises outside every per-record handler, so
the error propagates (aborting the conversion). -/
def convert_loop (ids : Nat → String) (values : List Json)
    (acc : List StixObject) (n : Nat) : Except PyErr (List StixObject × Nat) :=
  match values with
  | [] => .ok (acc, n)
  | item :: rest =>
    match create_threat_actor item with
    | none => convert_loop ids rest acc n
    | some ta =>
      match pyGet item "related" Json.null with
      | .error e => .error e
      | .ok relJ =>
        if pyTruthy relJ then
          match pyList relJ with
          | .error e => .error e
          | .ok stubs =>
            let p := create_relationships ids ta.id stubs n
            convert_loop ids rest
              (acc ++ StixObject.actor ta :: p.1.map StixObject.rel) p.2
        else
          convert_loop ids rest (acc ++ [StixObject.actor ta]) n

/-- Translation of `load_misp_data` (lines 29-53) after the file has been
read and parsed: the top level must be a dict containing `"values"`. -/
def load_misp_data (input : Json) : Except PyErr Json :=
  match input with
  | Json.obj kvs =>
    if (jlookup kvs "values").isSome then .ok (Json.obj kvs)
    else .error (PyErr.valueError "Invalid MISP JSON format: Missing values key")
  | _ => .error (PyErr.valueError "Invalid MISP JSON format: Missing values key")

/-- Modelled from the spec: the external serializer collaborator
(`obj.serialize()` + `json.loads`, line 202) for a threat actor, producing
its canonical JSON form with the constructed attributes. -/
def serialize_actor (a : ThreatActor) : Json :=
  Json.obj
    [ ("type", Json.str "threat-actor")
    , ("id", Json.str a.id)
    , ("name", a.name)
    , ("description", a.description)
    , ("aliases", Json.arr a.aliases)
    , ("labels", Json.arr (a.labels.map Json.str))
    , ("external_references", Json.arr (a.external_references.map fun u =>
        Json.obj [("source_name", Json.str "MISP"), ("url", Json.str u)]))
    , ("confidence", Json.num a.confidence) ]

/-- Modelled from the spec: the external serializer collaborator for a
relationship object. -/
def serialize_relationship (r : Relationship) : Json :=
  Json.obj
    [ ("type", Json.str "relationship")
    , ("id", Json.str r.id)
    , ("relationship_type", Json.str r.relationship_type)
    , ("source_ref", Json.str r.source_ref)
    , ("target_ref", Json.str r.target_ref)
    , ("description", Json.str r.description)
    , ("confidence", Json.num r.confidence) ]

/-- Serialization of one accumulated object (line 202). -/
def serialize_stix : StixObject → Json
  | StixObject.actor a => serialize_actor a
  | StixObject.rel r => serialize_relationship r

/-- Lines 171-191 of `convert`: load the data, extract and iterate the
`"values"` collection, and run the accumulation loop, returning the final
`stix_objects` list. -/
def built_objects (ids : Nat → String) (input : Json) :
    Except PyErr (List StixObject) :=
  match load_misp_data input with
  | .error e => .error e
  | .ok misp =>
    match pyGet misp "values" (Json.arr []) with
    | .error e => .error e
    | .ok valuesJ =>
      match pyList valuesJ with
      | .error e => .error e
      | .ok values =>
        match convert_loop ids values [] 0 with
        | .error e => .error e
        | .ok p => .ok p.1

/-- Translation of `convert` (lines 166-213): after the loop, an empty
object list raises `ValueError` (line 195); otherwise the bundle dict of
lines 198-203 is built with a fresh random id `bundle_id`. -/
def convert (ids : Nat → String) (bundle_id : String) (input : Json) :
    Except PyErr Json :=
  match built_objects ids input with
  | .error e => .error e
  | .ok objs =>
    if objs.isEmpty then
      .error (PyErr.valueError "No valid STIX objects created")
    else
      .ok (Json.obj
        [ ("type", Json.str "bundle")
        , ("id", Json.str ("bundle--" ++ bundle_id))
        , ("spec_version", Json.str "2.0")
        , ("objects", Json.arr (objs.map serialize_stix)) ])

/-- One whole run (lines 205-213): the output file is written only when the
bundle was built; every earlier exception leaves the output path untouched
and re-raises.  `fs` is the state observable at the output path. -/
def convert_run (ids : Nat → String) (bundle_id : String) (input : Json)
    (fs : Option Json) : Except PyErr Json × Option Json :=
  match convert ids bundle_id input with
  | .ok b => (.ok b, some b)
  | .error e => (.error e, fs)

/-- The `"objects"` attribute of a bundle. -/
def bundle_objects (b : Json) : Option Json :=
  match b with
  | Json.obj kvs => jlookup kvs "objects"
  | _ => none

/-- The contribution of one record to `stix_objects` (the body of the loop
at lines 179-191, described block-wise): nothing for a skipped record,
otherwise the actor followed by its relationships. -/
def item_block (ids : Nat → String) (item : Json) (n : Nat) :
    Except PyErr (List StixObject × Nat) :=
  match create_threat_actor item with
  | none => .ok ([], n)
  | some ta =>
    match pyGet item "related" Json.null with
    | .error e => .error e
    | .ok relJ =>
      if pyTruthy relJ then
        match pyList relJ with
        | .error e => .error e
        | .ok stubs =>
          let p := create_relationships ids ta.id stubs n
          .ok (StixObject.actor ta :: p.1.map StixObject.rel, p.2)
      else
        .ok ([StixObject.actor ta], n)

/-- Concatenation of the per-record blocks, in record order. -/
def blocks (ids : Nat → String) : List Json → Nat →
    Except PyErr (List StixObject × Nat)
  | [], n => .ok ([], n)
  | item :: rest, n =>
    match item_block ids item n with
    | .error e => .error e
    | .ok p =>
      match blocks ids rest p.2 with
      | .error e => .error e
      | .ok q => .ok (p.1 ++ q.1, q.2)

/-- The claim-relevant fields of a relationship (everything except the
randomly drawn id). -/
def rel_fields (r : Relationship) : String × String × String × String × Int :=
  (r.relationship_type, r.source_ref, r.target_ref, r.description, r.confidence)

/-- The edge the specification prescribes for one related-entity stub: a
stub that is a mapping with both required fields yields one edge, every
other stub yields none. -/
def stub_edge (src : String) (s : Json) :
    Option (String × String × String × String × Int) :=
  match s with
  | Json.obj kvs =>
    match jlookup kvs "dest-uuid", jlookup kvs "type" with
    | some d, some t =>
        some ("related-to", src, "threat-actor--" ++ pyStr d,
              "Relationship type: " ++ pyStr t, 80)
    | _, _ => none
  | _ => none

/-- The actor id carried by an accumulated object, if it is an actor. -/
def actorIdOf : StixObject → Option String
  | StixObject.actor a => some a.id
  | StixObject.rel _ => none

/-- The actor ids of the objects a conversion run accumulates. -/
def built_actor_ids (ids : Nat → String) (input : Json) :
    Except PyErr (List String) :=
  match built_objects ids input with
  | .error e => .error e
  | .ok os => .ok (os.filterMap actorIdOf)

/-- The `"values"` collection of an input document, as `convert` obtains
it (lines 173-179). -/
def doc_values (input : Json) : Except PyErr (List Json) :=
  match load_misp_data input with
  | .error e => .error e
  | .ok misp =>
    match pyGet misp "values" (Json.arr []) with
    | .error e => .error e
    | .ok valuesJ => pyList valuesJ

/-- The string forms of the `"uuid"` fields of the records that produce an
actor. -/
def produced_uuid_strs (vs : List Json) : List String :=
  vs.filterMap fun i =>
    match create_threat_actor i, pyGetItem i "uuid" with
    | some _, .ok v => some (pyStr v)
    | _, _ => none

/-- A fixed stand-in for the random id stream, used by concrete inputs. -/
def idsX : Nat → String := fun n => toString n

theorem pyGetItem_ok (item : Json) (key : String) (v : Json)
    (h : pyGetItem item key = .ok v) :
    ∃ kvs, item = Json.obj kvs ∧ jlookup kvs key = some v := by
  cases item <;> simp [pyGetItem] at h
  next kvs =>
    refine ⟨kvs, rfl, ?_⟩
    cases hl : jlookup kvs key
    · simp [hl] at h
    · simp [hl] at h; simp [h]

theorem pyGet_ok (item : Json) (key : String) (d w : Json)
    (h : pyGet item key d = .ok w) :
    ∃ kvs, item = Json.obj kvs ∧ w = (jlookup kvs key).getD d := by
  cases item <;> simp [pyGet] at h
  next kvs => exact ⟨kvs, rfl, h.symm⟩

theorem create_threat_actor_some_inv (item : Json) (a : ThreatActor)
    (h : create_threat_actor item = some a) :
    ∃ kvs v, item = Json.obj kvs ∧ jlookup kvs "uuid" = some v ∧
      a.id = "threat-actor--" ++ pyStr v ∧
      a.description =
        (jlookup kvs "description").getD (Json.str "No description available.") ∧
      ∃ mkvs, (jlookup kvs "meta").getD (Json.obj []) = Json.obj mkvs ∧
        pyInt ((jlookup mkvs "attribution-confidence").getD (Json.num 50)) =
          .ok a.confidence := by
  have heq : create_threat_actor_try item = .ok (some a) := by
    unfold create_threat_actor at h
    cases htry : create_threat_actor_try item with
    | error e => rw [htry] at h; exact absurd h (by simp)
    | ok r => rw [htry] at h; simp at h; rw [h]
  clear h
  unfold create_threat_actor_try at heq
  cases item with
  | null => simp [pyContains] at heq
  | bool b => simp [pyContains] at heq
  | num n => simp [pyContains] at heq
  | str s =>
    cases hb1 : strContains s "uuid" <;>
      cases hb2 : strContains s "value" <;>
        simp [pyContains, pyGetItem, hb1, hb2] at heq
  | arr xs =>
    cases hb1 : xs.any (fun j => match j with | Json.str t => t = "uuid" | _ => false) <;>
      cases hb2 : xs.any (fun j => match j with | Json.str t => t = "value" | _ => false) <;>
        simp [pyContains, pyGetItem, hb1, hb2] at heq
  | obj kvs =>
    cases hu : jlookup kvs "uuid" with
    | none => simp [pyContains, hu] at heq
    | some v =>
      cases hv : jlookup kvs "value" with
      | none => simp [pyContains, hu, hv] at heq
      | some w =>
        simp only [pyContains, pyGetItem, pyGet, hu, hv, Option.isSome_some,
          if_true, Bool.and_self, Bool.not_true, Bool.false_eq_true] at heq
        cases hm : jlookup kvs "meta" with
        | none =>
          simp [hm, _sanitize_list, pyGet, pyInt, pyTruthy, jlookup] at heq
          exact ⟨kvs, v, rfl, hu, by simp [← heq], by simp [← heq], [],
            by simp [hm], by simp [← heq, pyInt, jlookup]⟩
        | some m =>
          cases m with
          | null => simp [hm, pyGet] at heq
          | bool b => simp [hm, pyGet] at heq
          | num n2 => simp [hm, pyGet] at heq
          | str s2 => simp [hm, pyGet] at heq
          | arr xs2 => simp [hm, pyGet] at heq
          | obj kvs2 =>
            cases hs : _sanitize_list ((jlookup kvs2 "synonyms").getD Json.null) with
            | error e => simp [hm, pyGet, hs] at heq
            | ok syn =>
              cases hr : _sanitize_list ((jlookup kvs2 "refs").getD Json.null) with
              | error e => simp [hm, pyGet, hs, hr] at heq
              | ok refs =>
                cases hc : pyInt ((jlookup kvs2 "attribution-confidence").getD (Json.num 50)) with
                | error e => simp [hm, pyGet, hs, hr, hc] at heq
                | ok conf =>
                  simp [hm, pyGet, hs, hr, hc] at heq
                  exact ⟨kvs, v, rfl, hu, by simp [← heq], by simp [← heq], kvs2,
                    by simp [hm], by simp [← heq, hc]⟩

theorem convert_loop_skip (ids : Nat → String) (r : Json) (xs ys : List Json)
    (acc : List StixObject) (n : Nat) (h : create_threat_actor r = none) :
    convert_loop ids (xs ++ r :: ys) acc n = convert_loop ids (xs ++ ys) acc n := by
  induction xs generalizing acc n with
  | nil => simp [convert_loop, h]
  | cons x xs ih =>
    cases hca : create_threat_actor x with
    | none =>
      simp only [List.cons_append, convert_loop, hca]
      exact ih acc n
    | some ta =>
      cases hg : pyGet x "related" Json.null with
      | error e => simp [convert_loop, hca, hg]
      | ok relJ =>
        cases ht : pyTruthy relJ with
        | false =>
          simp only [List.cons_append, convert_loop, hca, hg, ht,
            Bool.false_eq_true, if_false]
          exact ih (acc ++ [StixObject.actor ta]) n
        | true =>
          cases hl : pyList relJ with
          | error e => simp [convert_loop, hca, hg, ht, hl]
          | ok stubs =>
            simp only [List.cons_append, convert_loop, hca, hg, ht, hl, if_true]
            exact ih _ _

/-- A record whose required fields are present but whose `"meta"` field is
not a mapping: actor construction raises and is caught. -/
def rec_bad_meta : Json :=
  Json.obj [("uuid", Json.str "m"), ("value", Json.str "M"), ("meta", Json.num 7)]

/-- A well-formed record. -/
def rec_good : Json := Json.obj [("uuid", Json.str "g"), ("value", Json.str "G")]

/-- A record whose `"related"` field is a truthy non-iterable value. -/
def rec_bad_related : Json :=
  Json.obj [("uuid", Json.str "b"), ("value", Json.str "B"), ("related", Json.num 1)]

/-- An input document containing a convertible record and a record with a
malformed `"related"` field. -/
def doc_bad_related : Json := Json.obj [("values", Json.arr [rec_good, rec_bad_related])]

/-- The same document without the malformed record. -/
def doc_good_only : Json := Json.obj [("values", Json.arr [rec_good])]

/-- Claim C2 is false as stated: the document `doc_bad_related` contains a
record from which a valid actor is built, yet the single malformed record
(whose `"related"` field is the non-iterable `1`) aborts the whole
conversion, while the document without it converts fine. -/
theorem claim_c2_counterexample :
    exOk (convert idsX "B" doc_bad_related) = false ∧
    exOk (convert idsX "B" doc_good_only) = true := ⟨rfl, rfl⟩

/-- Claim C2 (amended): a malformed record on which actor construction
fails (returns the skip signal) never aborts the conversion: the loop
behaves exactly as if the record were absent, and the remaining records
are processed unchanged.  (As the counterexample shows, this cannot be
extended to records whose actor is built but whose `"related"` field is a
truthy non-iterable value: those abort the conversion.) -/
theorem claim_c2_amended (ids : Nat → String) (r : Json) (xs ys : List Json)
    (acc : List StixObject) (n : Nat) (h : create_threat_actor r = none) :
    convert_loop ids (xs ++ r :: ys) acc n = convert_loop ids (xs ++ ys) acc n :=
  convert_loop_skip ids r xs ys acc n h

/-- Witness for C2: the record with non-mapping metadata is skipped and the
batch converts as if it were absent. -/
theorem claim_c2_witness :
    convert_loop idsX ([] ++ rec_bad_meta :: [rec_good]) [] 0 =
      convert_loop idsX ([] ++ [rec_good]) [] 0 :=
  claim_c2_amended idsX rec_bad_meta [] [rec_good] [] 0 rfl

/-- Claim C5: a record missing the `"uuid"` key or the `"value"` key makes
`create_threat_actor` return the skip signal, and the conversion loop
treats the batch exactly as if the record were absent (so every other
record is still converted normally and no object of the record appears). -/
theorem claim_c5 (kvs : List (String × Json))
    (h : jlookup kvs "uuid" = none ∨ jlookup kvs "value" = none) :
    create_threat_actor (Json.obj kvs) = none ∧
    ∀ (ids : Nat → String) (xs ys : List Json) (acc : List StixObject) (n : Nat),
      convert_loop ids (xs ++ Json.obj kvs :: ys) acc n =
        convert_loop ids (xs ++ ys) acc n := by
  have hnone : create_threat_actor (Json.obj kvs) = none := by
    rcases h with h | h
    · simp [create_threat_actor, create_threat_actor_try, pyContains, h]
    · cases hu : jlookup kvs "uuid" <;>
        simp [create_threat_actor, create_threat_actor_try, pyContains, hu, h]
  exact ⟨hnone, fun ids xs ys acc n => convert_loop_skip ids _ xs ys acc n hnone⟩

/-- Witness for C5 at a record carrying only a `"value"`. -/
theorem claim_c5_witness :
    create_threat_actor (Json.obj [("value", Json.str "x")]) = none ∧
    convert_loop idsX ([] ++ Json.obj [("value", Json.str "x")] :: [rec_good]) [] 0 =
      convert_loop idsX ([] ++ [rec_good]) [] 0 :=
  ⟨(claim_c5 [("value", Json.str "x")] (Or.inl rfl)).1,
   (claim_c5 [("value", Json.str "x")] (Or.inl rfl)).2 idsX [] [rec_good] [] 0⟩

/-- Claim C1: whenever a record carries a `"uuid"` field with string value
`u` and `create_threat_actor` produces an actor from it, the identifier of the actor is exactly `"threat-actor--" ++ u`, whatever the other fields
hold; there is no randomness, `create_threat_actor` being a pure function
of the record. -/
theorem claim_c1_actor_id (item : Json) (u : String) (a : ThreatActor)
    (hu : pyGetItem item "uuid" = .ok (Json.str u))
    (ha : create_threat_actor item = some a) :
    a.id = "threat-actor--" ++ u := by
  obtain ⟨kvs, v, rfl, hl, hid, -, -⟩ := create_threat_actor_some_inv _ _ ha
  simp only [pyGetItem, hl] at hu
  cases hu
  exact hid

/-- Witness for C1 at a concrete record with extra fields. -/
theorem claim_c1_witness :
    ({ id := "threat-actor--u1", name := Json.str "V",
       description := Json.str "No description available.",
       aliases := [], labels := ["Country: RU"],
       external_references := [], confidence := 50 } : ThreatActor).id =
      "threat-actor--" ++ "u1" :=
  claim_c1_actor_id
    (Json.obj [("uuid", Json.str "u1"), ("value", Json.str "V"),
               ("meta", Json.obj [("country", Json.str "RU")])])
    "u1" _ rfl rfl

/-- Claim C10: the placeholder description is used only when the
`"description"` key is absent from the record; whenever the key is present
(even bound to `null` or the empty string) the passed description is the
stored value, and when it is absent the placeholder is passed. -/
theorem claim_c10_description (kvs : List (String × Json)) (a : ThreatActor) :
    (∀ d, jlookup kvs "description" = some d →
        create_threat_actor (Json.obj kvs) = some a → a.description = d) ∧
    (jlookup kvs "description" = none →
        create_threat_actor (Json.obj kvs) = some a →
        a.description = Json.str "No description available.") := by
  constructor
  · intro d hd ha
    obtain ⟨kvs2, v, heq, -, -, hdesc, -⟩ := create_threat_actor_some_inv _ _ ha
    cases heq
    rw [hdesc, hd]
    rfl
  · intro hd ha
    obtain ⟨kvs2, v, heq, -, -, hdesc, -⟩ := create_threat_actor_some_inv _ _ ha
    cases heq
    rw [hdesc, hd]
    rfl

/-- Witness for C10 at a record whose description is present but `null`. -/
theorem claim_c10_witness :
    ({ id := "threat-actor--u", name := Json.str "V",
       description := Json.null, aliases := [], labels := [],
       external_references := [], confidence := 50 } : ThreatActor).description =
      Json.null :=
  (claim_c10_description
      [("uuid", Json.str "u"), ("value", Json.str "V"), ("description", Json.null)]
      _).1 Json.null rfl rfl

/-- Claim C4 is false as stated: `_sanitize_list` is not total; on the
non-iterable input `5` it raises `TypeError` (from `list(5)`). -/
theorem claim_c4_counterexample :
    _sanitize_list (Json.num 5) =
      Except.error (PyErr.typeError "object is not iterable") := rfl

/-- Claim C4 (amended): `_sanitize_list` behaves as specified on the stated
input domain, returning the empty sequence on an absent/null input, a
one-element sequence on a scalar string, and the input unchanged on a
sequence; but it is not total: a non-iterable scalar input (a number or a
boolean) raises `TypeError` instead of being coerced. -/
theorem claim_c4_amended :
    _sanitize_list Json.null = .ok [] ∧
    (∀ s : String, _sanitize_list (Json.str s) = .ok [Json.str s]) ∧
    (∀ xs : List Json, _sanitize_list (Json.arr xs) = .ok xs) ∧
    (∀ n : Int, exOk (_sanitize_list (Json.num n)) = false) ∧
    (∀ b : Bool, exOk (_sanitize_list (Json.bool b)) = false) :=
  ⟨rfl, fun _ => rfl, fun _ => rfl, fun _ => rfl, fun _ => rfl⟩

theorem create_relationships_fields (ids : Nat → String) (src : String)
    (stubs : List Json) (n : Nat) :
    ((create_relationships ids src stubs n).1).map rel_fields =
      stubs.filterMap (stub_edge src) := by
  induction stubs generalizing n with
  | nil => rfl
  | cons s rest ih =>
    cases s with
    | null => simp [create_relationships, relation_keys_ok, pyContains, stub_edge, ih]
    | bool b => simp [create_relationships, relation_keys_ok, pyContains, stub_edge, ih]
    | num m => simp [create_relationships, relation_keys_ok, pyContains, stub_edge, ih]
    | str s2 =>
      cases h1 : strContains s2 "dest-uuid" <;>
        cases h2 : strContains s2 "type" <;>
          simp [create_relationships, relation_keys_ok, relation_build,
            pyContains, pyGetItem, h1, h2, stub_edge, ih]
    | arr xs =>
      cases h1 : xs.any (fun j => match j with | Json.str t => t = "dest-uuid" | _ => false) <;>
        cases h2 : xs.any (fun j => match j with | Json.str t => t = "type" | _ => false) <;>
          simp [create_relationships, relation_keys_ok, relation_build,
            pyContains, pyGetItem, h1, h2, stub_edge, ih]
    | obj kvs =>
      cases hd : jlookup kvs "dest-uuid" with
      | none =>
        simp [create_relationships, relation_keys_ok, pyContains, hd, stub_edge, ih]
      | some d =>
        cases ht : jlookup kvs "type" with
        | none =>
          simp [create_relationships, relation_keys_ok, pyContains, hd, ht,
            stub_edge, ih]
        | some t =>
          simp [create_relationships, relation_keys_ok, relation_build,
            pyContains, pyGetItem, hd, ht, stub_edge, rel_fields, ih]

/-- Claim C6: for every source actor id and stub list, `create_relationships`
produces (in stub order) exactly one relationship per stub that is a mapping
carrying both `"dest-uuid"` and `"type"` — with relationship type
`"related-to"`, confidence 80, target `"threat-actor--" ++ dest-uuid` and a
description echoing the relation-kind label — and omits exactly the stubs
missing either field (or not mappings at all); one invalid stub never
prevents the edges of the remaining valid stubs. -/
theorem claim_c6_relationships (ids : Nat → String) (src : String)
    (stubs : List Json) (n : Nat) :
    ((create_relationships ids src stubs n).1).map rel_fields =
      stubs.filterMap (stub_edge src) :=
  create_relationships_fields ids src stubs n

/-- Claim C7: whenever a run builds zero objects (in particular on an input
document with an empty `"values"` sequence), the conversion fails with the
`ValueError` of line 195 and the state observable at the output path is
unchanged; and whenever a run does emit a bundle, its `"objects"` sequence
is non-empty — an empty bundle is never emitted. -/
theorem claim_c7_empty_guard (ids : Nat → String) (bid : String) (input : Json)
    (fs : Option Json) :
    (built_objects ids input = .ok [] →
      convert_run ids bid input fs =
        (.error (PyErr.valueError "No valid STIX objects created"), fs)) ∧
    (∀ b, (convert_run ids bid input fs).1 = .ok b →
      ∃ js, js ≠ [] ∧ bundle_objects b = some (Json.arr js)) := by
  constructor
  · intro h
    simp [convert_run, convert, h]
  · intro b hb
    unfold convert_run at hb
    cases hc : convert ids bid input with
    | error e => rw [hc] at hb; simp at hb
    | ok b2 =>
      rw [hc] at hb
      simp at hb
      subst hb
      unfold convert at hc
      cases ho : built_objects ids input with
      | error e => rw [ho] at hc; simp at hc
      | ok objs =>
        rw [ho] at hc
        cases objs with
        | nil => simp at hc
        | cons o os =>
          simp at hc
          refine ⟨(o :: os).map serialize_stix, by simp, ?_⟩
          rw [← hc]
          simp [bundle_objects, jlookup]

/-- The input document with an empty record collection. -/
def doc_empty_values : Json := Json.obj [("values", Json.arr [])]

/-- The bundle emitted for `doc_good_only` (bundle id drawn as `"B"`). -/
def bundle_good : Json :=
  Json.obj
    [ ("type", Json.str "bundle")
    , ("id", Json.str "bundle--B")
    , ("spec_version", Json.str "2.0")
    , ("objects", Json.arr
        [ Json.obj
            [ ("type", Json.str "threat-actor")
            , ("id", Json.str "threat-actor--g")
            , ("name", Json.str "G")
            , ("description", Json.str "No description available.")
            , ("aliases", Json.arr [])
            , ("labels", Json.arr [])
            , ("external_references", Json.arr [])
            , ("confidence", Json.num 50) ] ]) ]

/-- Witness for C7: the empty-values document fails and leaves the output
path unchanged, and a successful run has a non-empty object sequence. -/
theorem claim_c7_witness :
    convert_run idsX "B" doc_empty_values none =
      (.error (PyErr.valueError "No valid STIX objects created"), none) ∧
    ∃ js, js ≠ [] ∧ bundle_objects bundle_good = some (Json.arr js) :=
  ⟨(claim_c7_empty_guard idsX "B" doc_empty_values none).1 rfl,
   (claim_c7_empty_guard idsX "B" doc_good_only none).2 bundle_good rfl⟩

/-- Claim C8: the accumulated object sequence is exactly the concatenation,
in first-seen record order, of per-record blocks, where a block is the
actor of the record immediately followed by the relationships derived from
its related-entity list (nothing of a later record interleaves); the
`"objects"` sequence of the bundle serializes that list in the same order; and the
relationships of one record follow the order of its stubs. -/
theorem claim_c8_order :
    (∀ (ids : Nat → String) (values : List Json) (acc : List StixObject) (n : Nat),
      convert_loop ids values acc n =
        (blocks ids values n).map (fun p => (acc ++ p.1, p.2))) ∧
    (∀ (ids : Nat → String) (bid : String) (input : Json) (b : Json),
      convert ids bid input = .ok b →
      ∃ os, built_objects ids input = .ok os ∧
        bundle_objects b = some (Json.arr (os.map serialize_stix))) ∧
    (∀ (ids : Nat → String) (src : String) (stubs : List Json) (n : Nat),
      ((create_relationships ids src stubs n).1).map rel_fields =
        stubs.filterMap (stub_edge src)) := by
  refine ⟨?_, ?_, fun ids src stubs n => create_relationships_fields ids src stubs n⟩
  · intro ids values
    induction values with
    | nil => intro acc n; simp [convert_loop, blocks, Except.map]
    | cons i rest ih =>
      intro acc n
      cases hca : create_threat_actor i with
      | none =>
        cases hb : blocks ids rest n with
        | error e => simp [convert_loop, blocks, item_block, hca, hb, ih, Except.map]
        | ok q => simp [convert_loop, blocks, item_block, hca, hb, ih, Except.map]
      | some ta =>
        cases hg : pyGet i "related" Json.null with
        | error e => simp [convert_loop, blocks, item_block, hca, hg, Except.map]
        | ok relJ =>
          cases ht : pyTruthy relJ with
          | false =>
            cases hb : blocks ids rest n with
            | error e =>
              simp [convert_loop, blocks, item_block, hca, hg, ht, hb, ih, Except.map]
            | ok q =>
              simp [convert_loop, blocks, item_block, hca, hg, ht, hb, ih, Except.map]
          | true =>
            cases hl : pyList relJ with
            | error e =>
              simp [convert_loop, blocks, item_block, hca, hg, ht, hl, Except.map]
            | ok stubs =>
              cases hb : blocks ids rest (create_relationships ids ta.id stubs n).2 with
              | error e =>
                simp [convert_loop, blocks, item_block, hca, hg, ht, hl, hb, ih,
                  Except.map]
              | ok q =>
                simp [convert_loop, blocks, item_block, hca, hg, ht, hl, hb, ih,
                  Except.map]
  · intro ids bid input b hc
    unfold convert at hc
    cases ho : built_objects ids input with
    | error e => rw [ho] at hc; simp at hc
    | ok objs =>
      rw [ho] at hc
      cases objs with
      | nil => simp at hc
      | cons o os =>
        simp at hc
        exact ⟨o :: os, rfl, by rw [← hc]; simp [bundle_objects, jlookup]⟩

/-- Witness for C8 at the one-record document. -/
theorem claim_c8_witness :
    ∃ os, built_objects idsX doc_good_only = .ok os ∧
      bundle_objects bundle_good = some (Json.arr (os.map serialize_stix)) :=
  claim_c8_order.2.1 idsX "B" doc_good_only bundle_good rfl

theorem built_objects_ok (ids : Nat → String) (input : Json) (vs : List Json)
    (os : List StixObject) (hv : doc_values input = .ok vs)
    (ho : built_objects ids input = .ok os) :
    ∃ p, convert_loop ids vs [] 0 = .ok p ∧ p.1 = os := by
  unfold doc_values at hv
  unfold built_objects at ho
  cases hld : load_misp_data input with
  | error e => rw [hld] at hv; simp at hv
  | ok misp =>
    rw [hld] at hv ho
    simp only [] at hv ho
    cases hg : pyGet misp "values" (Json.arr []) with
    | error e => rw [hg] at hv; simp at hv
    | ok vJ =>
      rw [hg] at hv ho
      simp only [] at hv ho
      rw [hv] at ho
      simp only [] at ho
      cases hcl : convert_loop ids vs [] 0 with
      | error e => rw [hcl] at ho; simp at ho
      | ok p =>
        rw [hcl] at ho
        simp at ho
        exact ⟨p, rfl, ho⟩

theorem filterMap_actorIdOf_map_rel (rs : List Relationship) :
    (rs.map StixObject.rel).filterMap actorIdOf = [] := by
  induction rs with
  | nil => rfl
  | cons r rs ih => simp [List.filterMap_cons, actorIdOf, ih]

theorem convert_loop_actor_ids (ids : Nat → String) (values : List Json)
    (acc : List StixObject) (n : Nat) (os : List StixObject) (m : Nat)
    (h : convert_loop ids values acc n = .ok (os, m)) :
    os.filterMap actorIdOf =
      acc.filterMap actorIdOf ++
        values.filterMap (fun i => (create_threat_actor i).map ThreatActor.id) := by
  induction values generalizing acc n with
  | nil =>
    simp [convert_loop] at h
    obtain ⟨rfl, rfl⟩ := h
    simp
  | cons i rest ih =>
    cases hca : create_threat_actor i with
    | none =>
      have h2 : convert_loop ids rest acc n = .ok (os, m) := by
        simpa [convert_loop, hca] using h
      rw [ih _ _ h2]
      simp [List.filterMap_cons, hca]
    | some ta =>
      cases hg : pyGet i "related" Json.null with
      | error e => simp [convert_loop, hca, hg] at h
      | ok relJ =>
        cases ht : pyTruthy relJ with
        | false =>
          have h2 : convert_loop ids rest (acc ++ [StixObject.actor ta]) n =
              .ok (os, m) := by
            simpa [convert_loop, hca, hg, ht] using h
          rw [ih _ _ h2]
          simp [List.filterMap_append, List.filterMap_cons, actorIdOf, hca]
        | true =>
          cases hl : pyList relJ with
          | error e => simp [convert_loop, hca, hg, ht, hl] at h
          | ok stubs =>
            have h2 : convert_loop ids rest
                (acc ++ StixObject.actor ta ::
                  (create_relationships ids ta.id stubs n).1.map StixObject.rel)
                (create_relationships ids ta.id stubs n).2 = .ok (os, m) := by
              simpa [convert_loop, hca, hg, ht, hl] using h
            rw [ih _ _ h2]
            simp [List.filterMap_append, List.filterMap_cons, actorIdOf, hca,
              filterMap_actorIdOf_map_rel]

theorem actor_ids_eq_uuid_strs (vs : List Json) :
    vs.filterMap (fun i => (create_threat_actor i).map ThreatActor.id) =
      (produced_uuid_strs vs).map (fun s => "threat-actor--" ++ s) := by
  induction vs with
  | nil => rfl
  | cons i rest ih =>
    simp only [produced_uuid_strs] at ih ⊢
    rw [List.filterMap_cons, List.filterMap_cons]
    cases hca : create_threat_actor i with
    | none => simpa [hca] using ih
    | some a =>
      obtain ⟨kvs, v, heq, hlk, hid, -, -⟩ := create_threat_actor_some_inv _ _ hca
      subst heq
      have hget : pyGetItem (Json.obj kvs) "uuid" = .ok v := by
        simp [pyGetItem, hlk]
      simp [hca, hget, hid, ih]

theorem append_left_injective (a : String) :
    Function.Injective (fun s => a ++ s) := by
  intro x y h
  have hd := congrArg String.data h
  simp only [String.data_append] at hd
  exact String.ext (List.append_cancel_left hd)

/-- A second well-formed record, with a distinct uuid. -/
def rec_good2 : Json := Json.obj [("uuid", Json.str "h"), ("value", Json.str "H")]

/-- A document whose two records carry the same uuid. -/
def doc_dup : Json := Json.obj [("values", Json.arr [rec_good, rec_good])]

/-- A document whose two records carry distinct uuids. -/
def doc_two : Json := Json.obj [("values", Json.arr [rec_good, rec_good2])]

/-- Claim C9 is false as stated: a document whose two records carry the
same `"uuid"` produces a bundle whose two actor identifiers coincide, so
actor identifiers are not pairwise distinct for every input document. -/
theorem claim_c9_counterexample :
    built_actor_ids idsX doc_dup = .ok ["threat-actor--g", "threat-actor--g"] ∧
    ¬ (["threat-actor--g", "threat-actor--g"] : List String).Nodup :=
  ⟨rfl, by decide⟩

/-- Claim C9 (amended): the actor identifiers of a conversion run are
pairwise distinct provided the string forms of the `"uuid"` fields of the
records that produce actors are pairwise distinct (which the code does not
enforce: duplicated record uuids yield duplicated actor identifiers). -/
theorem claim_c9_amended (ids : Nat → String) (input : Json) (vs : List Json)
    (l : List String) (hv : doc_values input = .ok vs)
    (hl : built_actor_ids ids input = .ok l)
    (hnd : (produced_uuid_strs vs).Nodup) : l.Nodup := by
  unfold built_actor_ids at hl
  cases ho : built_objects ids input with
  | error e => rw [ho] at hl; simp at hl
  | ok os =>
    rw [ho] at hl
    simp at hl
    obtain ⟨p, hcl, hp⟩ := built_objects_ok ids input vs os hv ho
    have hids := convert_loop_actor_ids ids vs [] 0 p.1 p.2 (by rw [hcl])
    rw [actor_ids_eq_uuid_strs] at hids
    rw [← hl, ← hp, hids]
    simp only [List.filterMap_nil, List.nil_append]
    exact hnd.map (append_left_injective "threat-actor--")

/-- Witness for C9 at a document with two distinct uuids. -/
theorem claim_c9_witness :
    built_actor_ids idsX doc_two = .ok ["threat-actor--g", "threat-actor--h"] ∧
    (["threat-actor--g", "threat-actor--h"] : List String).Nodup :=
  ⟨rfl,
   claim_c9_amended idsX doc_two [rec_good, rec_good2]
     ["threat-actor--g", "threat-actor--h"] rfl rfl (by decide)⟩
